import Mathlib

/-!
Verification of `src/components/VideoPlayerManager.js`.

The component decorates an HTML `<video>` element with playback helpers
(volume, speed, play/pause, fullscreen), wires visual feedback icons, and
forwards media-source load failures to an interface manager.  The JavaScript
is shallowly embedded below: numeric helpers become functions on `ℚ`
(JavaScript `Math.round`, `Math.min`, `Math.max` on exact decimal values),
DOM side effects become explicit effect lists, and the event-driven feedback
icons become a discrete-time trace semantics over write events.
-/

namespace VideoPlayerManager

/-! ### Volume and playback-rate arithmetic (lines 32-73 of the source) -/

/-- `roundBy2Decimals` (source line 32-34): `Math.round(number * 100) / 100`.
JavaScript `Math.round x` is `⌊x + 1/2⌋` (half rounds toward +∞). -/
def roundBy2Decimals (number : ℚ) : ℚ :=
  (⌊number * 100 + 1 / 2⌋ : ℚ) / 100

/-- `video.increaseVolumeBy5Percent` (lines 58-60):
`this.volume = Math.min(roundBy2Decimals(this.volume + 0.05), 1)`. -/
def increaseVolumeBy5Percent (volume : ℚ) : ℚ :=
  min (roundBy2Decimals (volume + 5 / 100)) 1

/-- `video.decreaseVolumeBy5Percent` (lines 62-64):
`this.volume = Math.max(0, roundBy2Decimals(this.volume - 0.05))`. -/
def decreaseVolumeBy5Percent (volume : ℚ) : ℚ :=
  max 0 (roundBy2Decimals (volume - 5 / 100))

/-- `video.increaseSpeed` (lines 66-68):
`this.playbackRate = Math.min(this.playbackRate + 0.25, 2)`. -/
def increaseSpeed (playbackRate : ℚ) : ℚ :=
  min (playbackRate + 1 / 4) 2

/-- `video.decreaseSpeed` (lines 70-72):
`this.playbackRate = Math.max(0.25, this.playbackRate - 0.25)`. -/
def decreaseSpeed (playbackRate : ℚ) : ℚ :=
  max (1 / 4) (playbackRate - 1 / 4)

/-! ### Play/pause toggling (lines 44-53) -/

/-- The paused flag of the HTML video element. -/
structure VideoState where
  paused : Bool
deriving DecidableEq, Repr

/-- Observable calls made by the toggle helper on the video element. -/
inductive VideoEffect
  | playCall
  | pauseCall
  | dispatch (eventName : String)
deriving DecidableEq, Repr

/-- `this.play()`: native play clears the paused flag. -/
def playFn (v : VideoState) : VideoState × List VideoEffect :=
  ({ v with paused := false }, [VideoEffect.playCall])

/-- `this.pause()`: native pause sets the paused flag. -/
def pauseFn (v : VideoState) : VideoState × List VideoEffect :=
  ({ v with paused := true }, [VideoEffect.pauseCall])

/-- `video.togglePlayPause` (lines 44-52): if paused then `play()` else
`pause()`, then `dispatchEvent(new Event("togglePlayPause"))`. -/
def togglePlayPause (v : VideoState) : VideoState × List VideoEffect :=
  let r := if v.paused then playFn v else pauseFn v
  (r.1, r.2 ++ [VideoEffect.dispatch "togglePlayPause"])

/-! ### Interface-manager calls triggered by DOM events (lines 119-146) -/

/-- Calls the component can make on its interface manager. -/
inductive ManagerCall
  | showFailureMessage
deriving DecidableEq, Repr

/-- `srcTag.onerror` (lines 137-139): the handler body is exactly one call
`self.interfaceManager.showFailureMessage()`. -/
def srcOnError : List ManagerCall :=
  [ManagerCall.showFailureMessage]

/-- The DOM events for which the component registers handlers: the source
tag's native `error` event, `click` and `dblclick` on the video
(lines 198-210), and the custom `togglePlayPause` event (lines 158-174). -/
inductive DomEvent
  | sourceError
  | click
  | dblclick
  | togglePlayPauseEvt
deriving DecidableEq, Repr

/-- Interface-manager calls performed by the handler of each event.  The
`click` handler only runs `togglePlayPause` (play/pause/dispatch effects), the
`dblclick` handler only toggles fullscreen (vendor-API calls), and the
`togglePlayPause` listener only writes icon styles; none of them calls
`showFailureMessage`, so only `sourceError` reaches the interface manager. -/
def managerCalls : DomEvent → List ManagerCall
  | DomEvent.sourceError => srcOnError
  | DomEvent.click => []
  | DomEvent.dblclick => []
  | DomEvent.togglePlayPauseEvt => []

/-- Number of `showFailureMessage` calls produced by a sequence of events. -/
def showFailureCount (evs : List DomEvent) : ℕ :=
  ((evs.map managerCalls).flatten).count ManagerCall.showFailureMessage

/-! ### Fullscreen API branching (lines 79-116) -/

/-- A JavaScript fullscreen-element property can be missing (`undefined`),
`null`, or an element. -/
inductive FsElemProp
  | absent
  | jsNull
  | elem
deriving DecidableEq, Repr

/-- The fullscreen-related properties the source reads off a document:
the three vendor fullscreen-element properties and the three vendor exit
functions (`true` when the function is present). -/
structure FsDocument where
  webkitFullscreenElement : FsElemProp
  mozFullScreenElement : FsElemProp
  msFullscreenElement : FsElemProp
  webkitExitFullscreen : Bool
  mozCancelFullScreen : Bool
  msExitFullscreen : Bool
deriving DecidableEq, Repr

/-- The fullscreen-related properties the source reads off the video element:
presence of each vendor request function.  `webkitRequestFullscreen` and
`webkitRequestFullScreen` are distinct JavaScript property names (the source
guards on the first but invokes the second). -/
structure FsElement where
  webkitRequestFullscreen : Bool
  webkitRequestFullScreen : Bool
  mozRequestFullScreen : Bool
  msRequestFullscreen : Bool
  ownerDocument : FsDocument
deriving DecidableEq, Repr

/-- Vendor fullscreen functions the source can invoke. -/
inductive FsCall
  | webkitRequestFullScreenCall
  | mozRequestFullScreenCall
  | msRequestFullscreenCall
  | webkitExitFullscreenCall
  | mozCancelFullScreenCall
  | msExitFullscreenCall
deriving DecidableEq, Repr

/-- Errors a fullscreen helper can raise: invoking an absent property throws
a `TypeError` in JavaScript. -/
inductive JsError
  | typeError
deriving DecidableEq, Repr

/-- `video.isFullScreenModeEnabled` (lines 79-82):
`return this.ownerDocument.webkitFullscreenElement !== null` — an absent
property (`undefined`) also compares `!== null`. -/
def isFullScreenModeEnabled (e : FsElement) : Bool :=
  decide (e.ownerDocument.webkitFullscreenElement ≠ FsElemProp.jsNull)

/-- `video.enterFullScreenMode` (lines 92-103): guards on
`webkitRequestFullscreen` but invokes `webkitRequestFullScreen` (different
capitalization), then falls back to `mozRequestFullScreen`, then
`msRequestFullscreen`; with no guard satisfied it does nothing. -/
def enterFullScreenMode (e : FsElement) : Except JsError (List FsCall) :=
  if e.webkitRequestFullscreen then
    if e.webkitRequestFullScreen then
      Except.ok [FsCall.webkitRequestFullScreenCall]
    else
      Except.error JsError.typeError
  else if e.mozRequestFullScreen then
    Except.ok [FsCall.mozRequestFullScreenCall]
  else if e.msRequestFullscreen then
    Except.ok [FsCall.msRequestFullscreenCall]
  else
    Except.ok []

/-- `video.exitFullScreenMode` (lines 105-116): tries
`ownerDocument.webkitExitFullscreen`, then `mozCancelFullScreen`, then
`msExitFullscreen`; with none present it does nothing. -/
def exitFullScreenMode (e : FsElement) : Except JsError (List FsCall) :=
  if e.ownerDocument.webkitExitFullscreen then
    Except.ok [FsCall.webkitExitFullscreenCall]
  else if e.ownerDocument.mozCancelFullScreen then
    Except.ok [FsCall.mozCancelFullScreenCall]
  else if e.ownerDocument.msExitFullscreen then
    Except.ok [FsCall.msExitFullscreenCall]
  else
    Except.ok []

/-- `video.toggleFullScreenMode` (lines 84-90): exit when the query reports
fullscreen enabled, enter otherwise. -/
def toggleFullScreenMode (e : FsElement) : Except JsError (List FsCall) :=
  if isFullScreenModeEnabled e then exitFullScreenMode e
  else enterFullScreenMode e

/-- Capability lookup described by the spec: probe an ordered list of named
capabilities and invoke the first one present. -/
def firstPresent : List (Bool × FsCall) → List FsCall
  | [] => []
  | (b, c) :: rest => if b then [c] else firstPresent rest

/-- The query behavior the spec describes: report whether fullscreen is
enabled via whichever vendor-prefixed fullscreen-element property is present
on the document, tried in the order webkit, moz, ms. -/
def specFullscreenEnabled (d : FsDocument) : Bool :=
  match d.webkitFullscreenElement with
  | FsElemProp.absent =>
    match d.mozFullScreenElement with
    | FsElemProp.absent =>
      match d.msFullscreenElement with
      | FsElemProp.absent => false
      | p => decide (p = FsElemProp.elem)
    | p => decide (p = FsElemProp.elem)
  | p => decide (p = FsElemProp.elem)

/-! ### DOM construction (lines 21-30, 119-146, 176-196) -/

/-- The `<source>` child created by `createVideoElement` (lines 133-136). -/
structure SourceTag where
  src : String
  mediaType : String
deriving DecidableEq, Repr

/-- The `<video>` element as configured by `createVideoElement`
(lines 119-131, 142). -/
structure VideoTag where
  controls : Bool
  autoplay : Bool
  name : String
  styleWidth : String
  id : String
  className : String
  sources : List SourceTag
deriving DecidableEq, Repr

/-- A feedback icon `<div>` as produced by `createFeedbackIcon`
(lines 184-196): the returned `childNodes[0]` is the div carrying the given
id, class `ytp-bezel`, inline style `display: none;` and the svg path. -/
structure IconDiv where
  id : String
  className : String
  style : String
  svgPath : String
deriving DecidableEq, Repr

/-- Direct children appended to the outer container div. -/
inductive DomNode
  | icon (d : IconDiv)
  | video (v : VideoTag)
deriving DecidableEq, Repr

/-- `createFeedbackIcon(id, svgPath)` (lines 184-196). -/
def createFeedbackIcon (id svgPath : String) : IconDiv :=
  { id := id, className := "ytp-bezel", style := "display: none;",
    svgPath := svgPath }

/-- Svg path of the pause feedback icon (line 177). -/
def pausePath : String :=
  "M 12,26 16,26 16,10 12,10 z M 21,26 25,26 25,10 21,10 z"

/-- Svg path of the play feedback icon (line 178). -/
def playPath : String :=
  "M 12,26 18.5,22 18.5,14 12,10 z M 18.5,22 25,18 25,18 18.5,14 z"

/-- `createVideoElement(videoLink)` (lines 119-146): sets controls,
autoplay, name, width, id and class, and appends one `<source>` child with
the link and type `video/mp4`. -/
def createVideoElement (videoLink : String) : VideoTag :=
  { controls := true, autoplay := true, name := "media", styleWidth := "100%",
    id := "videoTag", className := "video-stream html5-main-video",
    sources := [{ src := videoLink, mediaType := "video/mp4" }] }

/-- `container.appendChild(n)`: adds `n` as last direct child. -/
def appendChild (container : List DomNode) (n : DomNode) : List DomNode :=
  container ++ [n]

/-- `createAllFeedbackIcons` (lines 176-182): appends the pause icon, then
the play icon, to the outer div. -/
def createAllFeedbackIcons (outerDiv : List DomNode) : List DomNode :=
  appendChild
    (appendChild outerDiv (DomNode.icon (createFeedbackIcon "pauseFeedback" pausePath)))
    (DomNode.icon (createFeedbackIcon "playFeedback" playPath))

/-- The `VideoPlayerManager` constructor's effect on the outer div
(lines 21-30): `enableVisualFeedbacks` appends the two icons, then the
constructor appends the video element; the shortcut manager only receives
the video element and touches no container children. -/
def constructVideoPlayerManager (videoLink : String) (outerDiv : List DomNode) :
    List DomNode :=
  appendChild (createAllFeedbackIcons outerDiv)
    (DomNode.video (createVideoElement videoLink))

/-! ### Play/pause visual feedback timing (lines 158-174)

The `togglePlayPause` listener reads the post-toggle paused flag, makes the
matching icon visible (`feedback.style.cssText = ''`) and schedules
`feedback.style.cssText = "display: none;"` 500ms later.  We model a whole
session as the list of toggle times (in milliseconds), collect every style
write it produces, and read an icon's visibility at a time as the last write
to it (icons start hidden, line 186). -/

/-- One style write to a feedback icon: the selector the icon was fetched
by, the written cssText, and the time of the write. -/
structure FeedbackWrite where
  selector : String
  cssText : String
  time : ℕ
deriving DecidableEq, Repr

/-- The fixed delay of the `setTimeout` on line 171, in milliseconds. -/
def feedbackDelay : ℕ := 500

/-- Line 161: `isVideoPaused ? "#pauseFeedback" : "#playFeedback"`. -/
def selectorFor (isVideoPaused : Bool) : String :=
  if isVideoPaused then "#pauseFeedback" else "#playFeedback"

/-- `updateVisualFeedback(isVideoPaused)` running at time `now`
(lines 160-172): write `''` to the selected icon now, and `display: none;`
to the same icon at `now + 500`. -/
def updateVisualFeedback (isVideoPaused : Bool) (now : ℕ) : List FeedbackWrite :=
  [{ selector := selectorFor isVideoPaused, cssText := "", time := now },
   { selector := selectorFor isVideoPaused, cssText := "display: none;",
     time := now + feedbackDelay }]

/-- `toggleEvents p ts` pairs each toggle time with the paused flag right
after that toggle: each toggle flips the flag (lines 44-52), and the
listener reads the post-toggle flag (line 174). -/
def toggleEvents : Bool → List ℕ → List (ℕ × Bool)
  | _, [] => []
  | p, u :: rest => (u, !p) :: toggleEvents (!p) rest

/-- All style writes produced by the feedback listener over a session that
starts with paused flag `p0` and toggles at the times in `ts`. -/
def feedbackWrites (p0 : Bool) (ts : List ℕ) : List FeedbackWrite :=
  (toggleEvents p0 ts).flatMap fun e => updateVisualFeedback e.2 e.1

/-- A write that makes the icon fetched by `sel` visible. -/
def isShowWrite (sel : String) (w : FeedbackWrite) : Bool :=
  decide (w.selector = sel ∧ w.cssText = "")

/-- A write that hides the icon fetched by `sel`. -/
def isHideWrite (sel : String) (w : FeedbackWrite) : Bool :=
  decide (w.selector = sel ∧ w.cssText = "display: none;")

/-- Whether the icon fetched by `sel` is visible at time `t`: some show
write has happened by `t` and every hide write that has happened by `t` is
no later than that show write (last write wins; the icon starts hidden). -/
def visibleAt (p0 : Bool) (ts : List ℕ) (sel : String) (t : ℕ) : Bool :=
  (feedbackWrites p0 ts).any fun w =>
    isShowWrite sel w && decide (w.time ≤ t) &&
      (feedbackWrites p0 ts).all fun w2 =>
        !(isHideWrite sel w2 && decide (w2.time ≤ t)) ||
          decide (w2.time ≤ w.time)

end VideoPlayerManager

namespace VideoPlayerManager

/-! ### Theorems for claims C1, C5, C3, C7 -/

/-- C1: for every starting volume in `[0,1]`, `increaseVolumeBy5Percent` sets
the volume to the round-half-up 2-decimal rounding of `volume + 0.05` clamped
above to `1`, and `decreaseVolumeBy5Percent` to the rounding of
`volume - 0.05` clamped below to `0`; rounding happens before clamping, both
results stay in `[0,1]`, and one increase from `0.97` yields `1`. -/
theorem volume_step_spec (v : ℚ) (h0 : 0 ≤ v) (h1 : v ≤ 1) :
    increaseVolumeBy5Percent v = min (roundBy2Decimals (v + 5 / 100)) 1 ∧
    decreaseVolumeBy5Percent v = max 0 (roundBy2Decimals (v - 5 / 100)) ∧
    0 ≤ increaseVolumeBy5Percent v ∧ increaseVolumeBy5Percent v ≤ 1 ∧
    0 ≤ decreaseVolumeBy5Percent v ∧ decreaseVolumeBy5Percent v ≤ 1 ∧
    increaseVolumeBy5Percent (97 / 100) = 1 := by
  refine ⟨rfl, rfl, ?_, ?_, ?_, ?_, ?_⟩
  · -- 0 ≤ min (round (v + 0.05)) 1
    refine le_min ?_ (by norm_num)
    unfold roundBy2Decimals
    have hfl : (0 : ℤ) ≤ ⌊(v + 5 / 100) * 100 + 1 / 2⌋ := by
      have : ((0 : ℤ) : ℚ) ≤ (v + 5 / 100) * 100 + 1 / 2 := by
        push_cast; nlinarith
      exact Int.le_floor.mpr this
    have : (0 : ℚ) ≤ (⌊(v + 5 / 100) * 100 + 1 / 2⌋ : ℚ) := by exact_mod_cast hfl
    positivity
  · exact min_le_right _ _
  · exact le_max_left _ _
  · -- max 0 (round (v - 0.05)) ≤ 1
    refine max_le (by norm_num) ?_
    unfold roundBy2Decimals
    have hfl : ⌊(v - 5 / 100) * 100 + 1 / 2⌋ ≤ (95 : ℤ) := by
      have harg : (v - 5 / 100) * 100 + 1 / 2 ≤ (191 : ℚ) / 2 := by nlinarith
      have : ⌊(v - 5 / 100) * 100 + 1 / 2⌋ ≤ ⌊(191 : ℚ) / 2⌋ := Int.floor_mono harg
      have h95 : ⌊(191 : ℚ) / 2⌋ = (95 : ℤ) := by
        rw [Int.floor_eq_iff]
        norm_num
      omega
    have hq : (⌊(v - 5 / 100) * 100 + 1 / 2⌋ : ℚ) ≤ (95 : ℚ) := by exact_mod_cast hfl
    have : (⌊(v - 5 / 100) * 100 + 1 / 2⌋ : ℚ) / 100 ≤ 95 / 100 := by linarith
    linarith
  · -- the concrete example 0.97 ↦ 1
    unfold increaseVolumeBy5Percent roundBy2Decimals
    have h102 : ⌊(97 / 100 + 5 / 100 : ℚ) * 100 + 1 / 2⌋ = (102 : ℤ) := by
      rw [Int.floor_eq_iff]
      norm_num
    rw [h102]
    norm_num

/-- Witness for `volume_step_spec` at the concrete volume `97/100`. -/
theorem volume_step_spec_witness :
    (0 : ℚ) ≤ 97 / 100 ∧ (97 : ℚ) / 100 ≤ 1 ∧
    increaseVolumeBy5Percent (97 / 100) = 1 :=
  ⟨by norm_num, by norm_num,
    (volume_step_spec (97 / 100) (by norm_num) (by norm_num)).2.2.2.2.2.2⟩

/-- C5: for every starting playback rate in `[0.25, 2]`, `increaseSpeed`
yields `min (rate + 0.25) 2` and `decreaseSpeed` yields
`max 0.25 (rate - 0.25)`, both staying within `[0.25, 2]`; in particular
increasing from `2` leaves the rate at `2`. -/
theorem speed_step_spec (r : ℚ) (h0 : 1 / 4 ≤ r) (h1 : r ≤ 2) :
    increaseSpeed r = min (r + 1 / 4) 2 ∧
    decreaseSpeed r = max (1 / 4) (r - 1 / 4) ∧
    1 / 4 ≤ increaseSpeed r ∧ increaseSpeed r ≤ 2 ∧
    1 / 4 ≤ decreaseSpeed r ∧ decreaseSpeed r ≤ 2 ∧
    increaseSpeed 2 = 2 := by
  refine ⟨rfl, rfl, ?_, ?_, ?_, ?_, ?_⟩
  · exact le_min (by linarith) (by norm_num)
  · exact min_le_right _ _
  · exact le_max_left _ _
  · exact max_le (by norm_num) (by linarith)
  · unfold increaseSpeed
    rw [min_eq_right (by norm_num)]

/-- Witness for `speed_step_spec` at the concrete rate `2`. -/
theorem speed_step_spec_witness :
    (1 : ℚ) / 4 ≤ 2 ∧ (2 : ℚ) ≤ 2 ∧ increaseSpeed 2 = 2 :=
  ⟨by norm_num, by norm_num,
    (speed_step_spec 2 (by norm_num) (by norm_num)).2.2.2.2.2.2⟩

/-- C3: `togglePlayPause` on a paused video invokes `play`, on a playing
video invokes `pause`, and in both cases dispatches exactly one
`togglePlayPause` event afterwards. -/
theorem togglePlayPause_spec (v : VideoState) :
    (v.paused = true →
      (togglePlayPause v).2 =
        [VideoEffect.playCall, VideoEffect.dispatch "togglePlayPause"] ∧
      (togglePlayPause v).1.paused = false) ∧
    (v.paused = false →
      (togglePlayPause v).2 =
        [VideoEffect.pauseCall, VideoEffect.dispatch "togglePlayPause"] ∧
      (togglePlayPause v).1.paused = true) ∧
    (togglePlayPause v).2.count (VideoEffect.dispatch "togglePlayPause") = 1 := by
  obtain ⟨p⟩ := v
  cases p <;> simp [togglePlayPause, playFn, pauseFn, List.count_cons]

/-- Witness for `togglePlayPause_spec` at a paused video. -/
theorem togglePlayPause_spec_witness :
    (togglePlayPause ⟨true⟩).2 =
      [VideoEffect.playCall, VideoEffect.dispatch "togglePlayPause"] ∧
    (togglePlayPause ⟨true⟩).1.paused = false :=
  (togglePlayPause_spec ⟨true⟩).1 rfl

/-- C7: over any sequence of DOM events handled by the component, the number
of `showFailureMessage` calls equals the number of source-error events:
each load failure triggers exactly one call, and nothing else triggers it. -/
theorem showFailureMessage_iff_sourceError (evs : List DomEvent) :
    showFailureCount evs = evs.count DomEvent.sourceError := by
  induction evs with
  | nil => rfl
  | cons e rest ih =>
    unfold showFailureCount at ih ⊢
    cases e <;>
      simp [managerCalls, srcOnError, List.count_cons, List.count_append, ih]

/-- C2 counterexample: on a document where only the moz fullscreen-element
property is present and reports no fullscreen (`null`), the code's query
still returns `true` (because `undefined !== null`), while the spec's
"whichever vendor API is present" query returns `false`; moreover on an
element where `webkitRequestFullscreen` is present but
`webkitRequestFullScreen` is absent, enter does not invoke the first present
API but raises a `TypeError`. -/
theorem fullscreen_query_counterexample :
    isFullScreenModeEnabled
      ⟨false, false, false, false,
        ⟨FsElemProp.absent, FsElemProp.jsNull, FsElemProp.absent,
          false, false, false⟩⟩ = true ∧
    specFullscreenEnabled
      ⟨FsElemProp.absent, FsElemProp.jsNull, FsElemProp.absent,
        false, false, false⟩ = false ∧
    enterFullScreenMode
      ⟨true, false, false, false,
        ⟨FsElemProp.jsNull, FsElemProp.jsNull, FsElemProp.jsNull,
          false, false, false⟩⟩ = Except.error JsError.typeError :=
  ⟨rfl, rfl, rfl⟩

/-- C2 amended: the query returns `webkitFullscreenElement !== null` only
(so it also reports enabled when the webkit property is absent); provided the
two webkit request spellings are equi-present, enter invokes the first
present of the webkit, moz, ms request APIs; exit invokes the first present
of the webkit, moz, ms exit APIs; toggle invokes exit exactly when the query
reports fullscreen enabled and enter otherwise. -/
theorem fullscreen_spec_amended (e : FsElement) :
    (isFullScreenModeEnabled e = true ↔
      e.ownerDocument.webkitFullscreenElement ≠ FsElemProp.jsNull) ∧
    (e.webkitRequestFullscreen = e.webkitRequestFullScreen →
      enterFullScreenMode e = Except.ok (firstPresent
        [(e.webkitRequestFullscreen, FsCall.webkitRequestFullScreenCall),
         (e.mozRequestFullScreen, FsCall.mozRequestFullScreenCall),
         (e.msRequestFullscreen, FsCall.msRequestFullscreenCall)])) ∧
    exitFullScreenMode e = Except.ok (firstPresent
        [(e.ownerDocument.webkitExitFullscreen, FsCall.webkitExitFullscreenCall),
         (e.ownerDocument.mozCancelFullScreen, FsCall.mozCancelFullScreenCall),
         (e.ownerDocument.msExitFullscreen, FsCall.msExitFullscreenCall)]) ∧
    (isFullScreenModeEnabled e = true →
      toggleFullScreenMode e = exitFullScreenMode e) ∧
    (isFullScreenModeEnabled e = false →
      toggleFullScreenMode e = enterFullScreenMode e) := by
  obtain ⟨w1, w2, mz, ms, d⟩ := e
  obtain ⟨wfe, mfe, msfe, wex, mex, msex⟩ := d
  refine ⟨by simp [isFullScreenModeEnabled], ?_, ?_, ?_, ?_⟩
  · intro h
    dsimp only at h
    subst h
    cases w1 <;> cases mz <;> cases ms <;> rfl
  · cases wex <;> cases mex <;> cases msex <;> rfl
  · intro h
    simp [toggleFullScreenMode, h]
  · intro h
    simp [toggleFullScreenMode, h]

/-- Witness for `fullscreen_spec_amended` on a concrete element whose webkit
request API is present under both spellings and whose document reports
`webkitFullscreenElement = null`. -/
theorem fullscreen_spec_amended_witness :
    enterFullScreenMode
        ⟨true, true, false, false,
          ⟨FsElemProp.jsNull, FsElemProp.absent, FsElemProp.absent,
            true, false, false⟩⟩ =
      Except.ok (firstPresent
        [(true, FsCall.webkitRequestFullScreenCall),
         (false, FsCall.mozRequestFullScreenCall),
         (false, FsCall.msRequestFullscreenCall)]) ∧
    toggleFullScreenMode
        ⟨true, true, false, false,
          ⟨FsElemProp.jsNull, FsElemProp.absent, FsElemProp.absent,
            true, false, false⟩⟩ =
      enterFullScreenMode
        ⟨true, true, false, false,
          ⟨FsElemProp.jsNull, FsElemProp.absent, FsElemProp.absent,
            true, false, false⟩⟩ :=
  ⟨(fullscreen_spec_amended
      ⟨true, true, false, false,
        ⟨FsElemProp.jsNull, FsElemProp.absent, FsElemProp.absent,
          true, false, false⟩⟩).2.1 rfl,
   (fullscreen_spec_amended
      ⟨true, true, false, false,
        ⟨FsElemProp.jsNull, FsElemProp.absent, FsElemProp.absent,
          true, false, false⟩⟩).2.2.2.2 rfl⟩

/-- C8: when none of the vendor request (resp. exit) functions is present,
`enterFullScreenMode` (resp. `exitFullScreenMode`) invokes nothing and
raises no error. -/
theorem fullscreen_no_api_silent (e : FsElement) :
    (e.webkitRequestFullscreen = false → e.mozRequestFullScreen = false →
      e.msRequestFullscreen = false → enterFullScreenMode e = Except.ok []) ∧
    (e.ownerDocument.webkitExitFullscreen = false →
      e.ownerDocument.mozCancelFullScreen = false →
      e.ownerDocument.msExitFullscreen = false →
      exitFullScreenMode e = Except.ok []) := by
  constructor
  · intro h1 h2 h3
    simp [enterFullScreenMode, h1, h2, h3]
  · intro h1 h2 h3
    simp [exitFullScreenMode, h1, h2, h3]

/-- Witness for `fullscreen_no_api_silent` on an element with no vendor
fullscreen API at all. -/
theorem fullscreen_no_api_silent_witness :
    enterFullScreenMode
        ⟨false, false, false, false,
          ⟨FsElemProp.absent, FsElemProp.absent, FsElemProp.absent,
            false, false, false⟩⟩ = Except.ok [] ∧
    exitFullScreenMode
        ⟨false, false, false, false,
          ⟨FsElemProp.absent, FsElemProp.absent, FsElemProp.absent,
            false, false, false⟩⟩ = Except.ok [] :=
  ⟨(fullscreen_no_api_silent
      ⟨false, false, false, false,
        ⟨FsElemProp.absent, FsElemProp.absent, FsElemProp.absent,
          false, false, false⟩⟩).1 rfl rfl rfl,
   (fullscreen_no_api_silent
      ⟨false, false, false, false,
        ⟨FsElemProp.absent, FsElemProp.absent, FsElemProp.absent,
          false, false, false⟩⟩).2 rfl rfl rfl⟩

/-- C9: on every element where `webkitRequestFullscreen` is present but the
differently-capitalized `webkitRequestFullScreen` is absent, the guarded
branch invokes an absent function and `enterFullScreenMode` raises a
`TypeError` instead of degrading silently. -/
theorem enterFullScreen_capitalization_unsafe (e : FsElement)
    (hguard : e.webkitRequestFullscreen = true)
    (hcall : e.webkitRequestFullScreen = false) :
    enterFullScreenMode e = Except.error JsError.typeError := by
  simp [enterFullScreenMode, hguard, hcall]

/-- Witness for `enterFullScreen_capitalization_unsafe` on a concrete
element with the mismatched webkit spellings. -/
theorem enterFullScreen_capitalization_unsafe_witness :
    enterFullScreenMode
        ⟨true, false, true, true,
          ⟨FsElemProp.jsNull, FsElemProp.jsNull, FsElemProp.jsNull,
            true, true, true⟩⟩ = Except.error JsError.typeError :=
  enterFullScreen_capitalization_unsafe
    ⟨true, false, true, true,
      ⟨FsElemProp.jsNull, FsElemProp.jsNull, FsElemProp.jsNull,
        true, true, true⟩⟩ rfl rfl

/-- C10: construction appends exactly three direct children to the supplied
container, in order: pause icon, play icon, video element; both icons are
created hidden (`display: none;`), and the video element is created with
controls and autoplay enabled and id `videoTag`. -/
theorem construction_children_spec (videoLink : String) (outerDiv : List DomNode) :
    constructVideoPlayerManager videoLink outerDiv =
      outerDiv ++
        [DomNode.icon (createFeedbackIcon "pauseFeedback" pausePath),
         DomNode.icon (createFeedbackIcon "playFeedback" playPath),
         DomNode.video (createVideoElement videoLink)] ∧
    (constructVideoPlayerManager videoLink outerDiv).length =
      outerDiv.length + 3 ∧
    (createFeedbackIcon "pauseFeedback" pausePath).style = "display: none;" ∧
    (createFeedbackIcon "playFeedback" playPath).style = "display: none;" ∧
    (createVideoElement videoLink).controls = true ∧
    (createVideoElement videoLink).autoplay = true ∧
    (createVideoElement videoLink).id = "videoTag" := by
  refine ⟨?_, ?_, rfl, rfl, rfl, rfl, rfl⟩
  · simp [constructVideoPlayerManager, createAllFeedbackIcons, appendChild]
  · simp [constructVideoPlayerManager, createAllFeedbackIcons, appendChild]

/-! ### Helper lemmas for the feedback trace semantics -/

theorem toggleEvents_map_fst (p : Bool) (ts : List ℕ) :
    (toggleEvents p ts).map Prod.fst = ts := by
  induction ts generalizing p with
  | nil => rfl
  | cons u rest ih => simp [toggleEvents, ih]

theorem mem_ts_of_mem_toggleEvents {p : Bool} {ts : List ℕ} {e : ℕ × Bool}
    (he : e ∈ toggleEvents p ts) : e.1 ∈ ts := by
  have h := List.mem_map_of_mem Prod.fst he
  rwa [toggleEvents_map_fst] at h

theorem exists_toggleEvent_of_mem {ts : List ℕ} (p : Bool) {u : ℕ}
    (hu : u ∈ ts) : ∃ b, (u, b) ∈ toggleEvents p ts := by
  rw [← toggleEvents_map_fst p ts] at hu
  obtain ⟨e, he, hfst⟩ := List.mem_map.mp hu
  refine ⟨e.2, ?_⟩
  have hmk : (e.1, e.2) ∈ toggleEvents p ts := by simpa using he
  rwa [hfst] at hmk

theorem toggleEvents_flag_unique {ts : List ℕ} (hnd : ts.Nodup) (p : Bool)
    {u : ℕ} {b1 b2 : Bool} (h1 : (u, b1) ∈ toggleEvents p ts)
    (h2 : (u, b2) ∈ toggleEvents p ts) : b1 = b2 := by
  induction ts generalizing p with
  | nil => simp [toggleEvents] at h1
  | cons v rest ih =>
    obtain ⟨hv, hrest⟩ := List.nodup_cons.mp hnd
    simp only [toggleEvents, List.mem_cons] at h1 h2
    rcases h1 with h1 | h1 <;> rcases h2 with h2 | h2
    · rw [Prod.mk.injEq] at h1 h2
      exact h1.2.trans h2.2.symm
    · exfalso
      rw [Prod.mk.injEq] at h1
      exact hv (h1.1 ▸ mem_ts_of_mem_toggleEvents h2)
    · exfalso
      rw [Prod.mk.injEq] at h2
      exact hv (h2.1 ▸ mem_ts_of_mem_toggleEvents h1)
    · exact ih hrest (!p) h1 h2

theorem mem_feedbackWrites {p0 : Bool} {ts : List ℕ} {w : FeedbackWrite} :
    w ∈ feedbackWrites p0 ts ↔
      ∃ e ∈ toggleEvents p0 ts, w ∈ updateVisualFeedback e.2 e.1 :=
  List.mem_flatMap

theorem show_write_mem {p0 : Bool} {ts : List ℕ} {e : ℕ × Bool}
    (he : e ∈ toggleEvents p0 ts) :
    ({ selector := selectorFor e.2, cssText := "", time := e.1 } :
      FeedbackWrite) ∈ feedbackWrites p0 ts :=
  mem_feedbackWrites.mpr ⟨e, he, by simp [updateVisualFeedback]⟩

theorem hide_write_mem {p0 : Bool} {ts : List ℕ} {e : ℕ × Bool}
    (he : e ∈ toggleEvents p0 ts) :
    ({ selector := selectorFor e.2, cssText := "display: none;",
       time := e.1 + feedbackDelay } : FeedbackWrite) ∈ feedbackWrites p0 ts :=
  mem_feedbackWrites.mpr ⟨e, he, by simp [updateVisualFeedback]⟩

theorem show_write_cases {p0 : Bool} {ts : List ℕ} {sel : String}
    {w : FeedbackWrite} (hw : w ∈ feedbackWrites p0 ts)
    (hs : isShowWrite sel w = true) :
    ∃ e ∈ toggleEvents p0 ts, selectorFor e.2 = sel ∧ w.time = e.1 := by
  obtain ⟨e, he, hmem⟩ := mem_feedbackWrites.mp hw
  unfold isShowWrite at hs
  rw [decide_eq_true_eq] at hs
  obtain ⟨hsel, hcss⟩ := hs
  simp only [updateVisualFeedback, List.mem_cons, List.not_mem_nil,
    or_false] at hmem
  rcases hmem with rfl | rfl
  · exact ⟨e, he, hsel, rfl⟩
  · exact absurd hcss (by dsimp only; decide)

theorem hide_write_cases {p0 : Bool} {ts : List ℕ} {sel : String}
    {w : FeedbackWrite} (hw : w ∈ feedbackWrites p0 ts)
    (hh : isHideWrite sel w = true) :
    ∃ e ∈ toggleEvents p0 ts, selectorFor e.2 = sel ∧
      w.time = e.1 + feedbackDelay := by
  obtain ⟨e, he, hmem⟩ := mem_feedbackWrites.mp hw
  unfold isHideWrite at hh
  rw [decide_eq_true_eq] at hh
  obtain ⟨hsel, hcss⟩ := hh
  simp only [updateVisualFeedback, List.mem_cons, List.not_mem_nil,
    or_false] at hmem
  rcases hmem with rfl | rfl
  · exact absurd hcss (by dsimp only; decide)
  · exact ⟨e, he, hsel, rfl⟩

theorem gap_forall {ts : List ℕ}
    (hgap : ts.Pairwise fun a b => a + feedbackDelay < b) :
    ∀ a ∈ ts, ∀ b ∈ ts, a < b → a + feedbackDelay < b := by
  have h2 : ts.Pairwise fun a b =>
      (a < b → a + feedbackDelay < b) ∧ (b < a → b + feedbackDelay < a) :=
    hgap.imp fun hab => ⟨fun _ => hab, fun hba => absurd hba (by omega)⟩
  have hsym : Symmetric fun a b : ℕ =>
      (a < b → a + feedbackDelay < b) ∧ (b < a → b + feedbackDelay < a) :=
    fun _ _ h => ⟨h.2, h.1⟩
  intro a ha b hb hlt
  exact ((h2.forall hsym) ha hb (Nat.ne_of_lt hlt)).1 hlt

theorem nodup_of_gap {ts : List ℕ}
    (hgap : ts.Pairwise fun a b => a + feedbackDelay < b) : ts.Nodup :=
  hgap.imp fun h => by omega

/-- Under the gap condition, an icon is visible at `t` exactly when some
toggle selecting it happened within the last `feedbackDelay` milliseconds. -/
theorem visibleAt_iff_window {p0 : Bool} {ts : List ℕ} {sel : String} {t : ℕ}
    (hgap : ts.Pairwise fun a b => a + feedbackDelay < b) :
    visibleAt p0 ts sel t = true ↔
      ∃ e ∈ toggleEvents p0 ts, selectorFor e.2 = sel ∧
        e.1 ≤ t ∧ t < e.1 + feedbackDelay := by
  unfold visibleAt
  rw [List.any_eq_true]
  constructor
  · rintro ⟨w, hw, hcond⟩
    simp only [Bool.and_eq_true, List.all_eq_true, decide_eq_true_eq] at hcond
    obtain ⟨⟨hshow, hwt⟩, hall⟩ := hcond
    obtain ⟨e, he, hsel, htime⟩ := show_write_cases hw hshow
    refine ⟨e, he, hsel, by omega, ?_⟩
    have hhmem := hide_write_mem he
    have hhide : isHideWrite sel
        ({ selector := selectorFor e.2, cssText := "display: none;",
           time := e.1 + feedbackDelay } : FeedbackWrite) = true := by
      unfold isHideWrite
      rw [decide_eq_true_eq]
      exact ⟨hsel, rfl⟩
    have hor := hall _ hhmem
    rw [Bool.or_eq_true] at hor
    have hpos : 0 < feedbackDelay := by decide
    rcases hor with h | h
    · -- the hide of this very toggle has not happened yet
      rw [hhide, Bool.true_and, Bool.not_eq_true',
        decide_eq_false_iff_not] at h
      dsimp only at h
      omega
    · -- the hide of this very toggle cannot precede its show
      rw [decide_eq_true_eq] at h
      dsimp only at h
      omega
  · rintro ⟨e, he, hsel, hle, hlt⟩
    refine ⟨{ selector := selectorFor e.2, cssText := "", time := e.1 },
      show_write_mem he, ?_⟩
    simp only [Bool.and_eq_true, List.all_eq_true, decide_eq_true_eq]
    refine ⟨⟨?_, hle⟩, ?_⟩
    · unfold isShowWrite
      rw [decide_eq_true_eq]
      exact ⟨hsel, rfl⟩
    · intro w2 hw2
      rw [Bool.or_eq_true]
      by_cases hhide : isHideWrite sel w2 = true
      · by_cases hw2t : w2.time ≤ t
        · right
          rw [decide_eq_true_eq]
          obtain ⟨e2, he2, hsel2, htime2⟩ := hide_write_cases hw2 hhide
          rcases Nat.lt_trichotomy e2.1 e.1 with hc | hc | hc
          · have hg := gap_forall hgap e2.1 (mem_ts_of_mem_toggleEvents he2)
              e.1 (mem_ts_of_mem_toggleEvents he) hc
            omega
          · omega
          · have hg := gap_forall hgap e.1 (mem_ts_of_mem_toggleEvents he)
              e2.1 (mem_ts_of_mem_toggleEvents he2) hc
            omega
        · left
          rw [Bool.not_eq_true',
            show decide (w2.time ≤ t) = false from
              decide_eq_false_iff_not.mpr hw2t,
            Bool.and_false]
      · left
        rw [Bool.not_eq_true', Bool.eq_false_iff.mpr hhide, Bool.false_and]

/-- C4 counterexample: with the video initially paused and toggles at 0ms
and 300ms, the moment 400ms lies within 500ms of the second toggle, yet both
feedback icons are visible there (the play icon shown at 0ms is only hidden
at 500ms), so it is false that exactly one icon is visible within 500ms of
any toggle once toggles may occur within 500ms of a previous one. -/
theorem feedback_overlap_counterexample :
    (∃ u ∈ [0, 300], u ≤ 400 ∧ 400 < u + feedbackDelay) ∧
    visibleAt true [0, 300] "#pauseFeedback" 400 = true ∧
    visibleAt true [0, 300] "#playFeedback" 400 = true := by
  decide

/-- C4 amended: provided any two toggles are more than 500ms apart, at every
moment within 500ms after a toggle exactly one of the two feedback icons is
visible, and at every other moment both icons are hidden. -/
theorem feedback_exclusive_spec (p0 : Bool) (ts : List ℕ) (t : ℕ)
    (hgap : ts.Pairwise fun a b => a + feedbackDelay < b) :
    ((∃ u ∈ ts, u ≤ t ∧ t < u + feedbackDelay) →
      visibleAt p0 ts "#pauseFeedback" t ≠ visibleAt p0 ts "#playFeedback" t) ∧
    ((¬ ∃ u ∈ ts, u ≤ t ∧ t < u + feedbackDelay) →
      visibleAt p0 ts "#pauseFeedback" t = false ∧
      visibleAt p0 ts "#playFeedback" t = false) := by
  constructor
  · rintro ⟨u, hu, hle, hlt⟩
    obtain ⟨b, hb⟩ := exists_toggleEvent_of_mem p0 hu
    have hvis : visibleAt p0 ts (selectorFor b) t = true :=
      (visibleAt_iff_window hgap).mpr ⟨(u, b), hb, rfl, hle, hlt⟩
    have hother : visibleAt p0 ts (selectorFor (!b)) t = false := by
      rw [Bool.eq_false_iff]
      intro hv
      obtain ⟨e2, he2, hsel2, hle2, hlt2⟩ := (visibleAt_iff_window hgap).mp hv
      rcases Nat.lt_trichotomy e2.1 u with hc | hc | hc
      · have hg := gap_forall hgap e2.1 (mem_ts_of_mem_toggleEvents he2) u hu hc
        omega
      · -- the same toggle cannot select both icons
        have hb2 : (u, e2.2) ∈ toggleEvents p0 ts := by
          rw [← hc]
          simpa using he2
        have hflag : e2.2 = b :=
          toggleEvents_flag_unique (nodup_of_gap hgap) p0 hb2 hb
        rw [hflag] at hsel2
        cases b <;> exact absurd hsel2 (by decide)
      · have hg := gap_forall hgap u hu e2.1 (mem_ts_of_mem_toggleEvents he2) hc
        omega
    cases b
    · have hv : visibleAt p0 ts "#playFeedback" t = true := hvis
      have ho : visibleAt p0 ts "#pauseFeedback" t = false := hother
      rw [hv, ho]
      decide
    · have hv : visibleAt p0 ts "#pauseFeedback" t = true := hvis
      have ho : visibleAt p0 ts "#playFeedback" t = false := hother
      rw [hv, ho]
      decide
  · intro hno
    constructor
    · rw [Bool.eq_false_iff]
      intro hv
      obtain ⟨e2, he2, _, hle2, hlt2⟩ := (visibleAt_iff_window hgap).mp hv
      exact hno ⟨e2.1, mem_ts_of_mem_toggleEvents he2, hle2, hlt2⟩
    · rw [Bool.eq_false_iff]
      intro hv
      obtain ⟨e2, he2, _, hle2, hlt2⟩ := (visibleAt_iff_window hgap).mp hv
      exact hno ⟨e2.1, mem_ts_of_mem_toggleEvents he2, hle2, hlt2⟩

/-- Witness for `feedback_exclusive_spec`: toggles at 0ms and 600ms, queried
at 100ms, inside the first toggle's window. -/
theorem feedback_exclusive_spec_witness :
    visibleAt true [0, 600] "#pauseFeedback" 100 ≠
      visibleAt true [0, 600] "#playFeedback" 100 :=
  (feedback_exclusive_spec true [0, 600] 100 (by decide)).1
    ⟨0, by decide, by decide, by decide⟩

/-- C6: when the `togglePlayPause` event fires, the handler selects the
pause icon exactly when the video is then paused (the play icon otherwise),
writes its style to visible at that instant and schedules the hiding write
exactly `feedbackDelay = 500` ms later; over a session with that single
toggle at time `now`, the selected icon is visible precisely on
`[now, now + 500)` and the other icon is never visible. -/
theorem updateVisualFeedback_spec (p : Bool) (now t : ℕ) :
    updateVisualFeedback p now =
      [{ selector := selectorFor p, cssText := "", time := now },
       { selector := selectorFor p, cssText := "display: none;",
         time := now + feedbackDelay }] ∧
    selectorFor p = (if p then "#pauseFeedback" else "#playFeedback") ∧
    feedbackDelay = 500 ∧
    (visibleAt (!p) [now] (selectorFor p) t = true ↔
      now ≤ t ∧ t < now + feedbackDelay) ∧
    visibleAt (!p) [now] (selectorFor (!p)) t = false := by
  refine ⟨rfl, rfl, rfl, ?_, ?_⟩
  · rw [visibleAt_iff_window (by simp)]
    constructor
    · rintro ⟨e, he, hsel, hle, hlt⟩
      simp only [toggleEvents, List.mem_singleton] at he
      subst he
      exact ⟨hle, hlt⟩
    · rintro ⟨hle, hlt⟩
      refine ⟨(now, p), ?_, rfl, hle, hlt⟩
      simp [toggleEvents]
  · rw [Bool.eq_false_iff]
    intro hv
    rw [visibleAt_iff_window (by simp)] at hv
    obtain ⟨e, he, hsel, _, _⟩ := hv
    simp only [toggleEvents, List.mem_singleton] at he
    subst he
    dsimp only at hsel
    cases p <;> exact absurd hsel (by decide)

/-- Witness for `updateVisualFeedback_spec`: after a toggle at 40ms leaving
the video paused, the pause icon is visible at 40ms. -/
theorem updateVisualFeedback_spec_witness :
    visibleAt (!true) [40] (selectorFor true) 40 = true :=
  (updateVisualFeedback_spec true 40 40).2.2.2.1.mpr
    ⟨Nat.le_refl 40, by decide⟩

end VideoPlayerManager
